import Mathlib

/-!
Verification development for the SmartPark-Admin dashboard (a Next.js /
TypeScript client of a parking-management backend).

The TypeScript sources are shallowly embedded as pure Lean functions:
  - browser `localStorage` becomes an explicit `StorageState`;
  - JS exceptions become `Except Unit`; a `try/catch` is a `match` on it;
  - the result of an HTTP call is passed in as an explicit outcome value;
  - JS object spread on header objects becomes list append, with lookup
    semantics where the last occurrence of a key wins (`hGet`);
  - JS string truthiness (empty string is falsy) is `jsTruthy`;
  - `JSON.parse` for the stored user record is a parameter
    `parse : String → Except Unit User`, since the real parser is a
    platform primitive; nothing below depends on its behaviour beyond
    being a function that may fail.
-/

set_option autoImplicit false

/-- JS truthiness of a nullable string: `undefined`/`null` and the empty
string are falsy, every other string is truthy. -/
def jsTruthy : Option String → Bool
  | none => false
  | some s => !(s == "")

/-- Character-list version of `String.startsWith`: does the second list
start with the first (the pattern)? -/
def startsWithChars : List Char → List Char → Bool
  | [], _ => true
  | _ :: _, [] => false
  | a :: as, b :: bs => a == b && startsWithChars as bs

/-- Substring occurrence on character lists; the empty pattern occurs in
every list, matching JS `String.prototype.includes('')`. -/
def containsChars (pat : List Char) : List Char → Bool
  | [] => pat.isEmpty
  | c :: rest => startsWithChars pat (c :: rest) || containsChars pat rest

/-- JS `hay.includes(needle)`. -/
def jsIncludes (hay needle : String) : Bool :=
  containsChars needle.data hay.data

/-- JS `s.startsWith(p)` (also the behaviour of Lean's
`String.startsWith`, restated on character lists so that the kernel can
evaluate it). -/
def strStartsWith (s p : String) : Bool :=
  startsWithChars p.data s.data

/-- JS `String.prototype.toLowerCase` restricted to the ASCII range
(child characters outside ASCII are left unchanged by `Char.toLower`,
which is all the development relies on). -/
def strToLower (s : String) : String :=
  String.mk (s.data.map Char.toLower)

/-- JS `String.prototype.trim`: strip whitespace from both ends. -/
def jsTrim (s : String) : String :=
  String.mk (((s.data.dropWhile Char.isWhitespace).reverse.dropWhile
    Char.isWhitespace).reverse)

/-- JS `String.prototype.replace` with a string pattern replaces only the
first occurrence; this is that operation with an empty replacement. -/
def replaceFirstChars (pat : List Char) : List Char → List Char
  | [] => []
  | c :: rest =>
    if startsWithChars pat (c :: rest) then (c :: rest).drop pat.length
    else c :: replaceFirstChars pat rest

/-- `header.replace('Bearer ', '')` from middleware.ts. -/
def stripBearer (h : String) : String :=
  String.mk (replaceFirstChars "Bearer ".data h.data)

/-- Lookup in a JS-object-as-list of key/value pairs: the LAST occurrence
of a key wins, matching the override semantics of object spread when the
object is built by appending spreads left to right. -/
def hGet : List (String × String) → String → Option String
  | [], _ => none
  | (k', v) :: rest, k =>
    match hGet rest k with
    | some v' => some v'
    | none => if k' = k then some v else none

/- ===================== Data model (mirrored API records) ===================== -/

/-- A vehicle entry on a user record (utils/auth.ts, UsersManagement.tsx). -/
structure Vehicle where
  plate : String
  description : String
  deriving Repr, DecidableEq

/-- The user record shape shared by utils/auth.ts, the login page and
UsersManagement.tsx (`rfid` is optional and only present there). -/
structure User where
  userID : String
  username : String
  email : String
  vehicles : List Vehicle
  role : String
  rfid : Option String := none
  deriving Repr, DecidableEq

/-- Pagination descriptor from ParkingHistory.tsx. -/
structure PaginationInfo where
  total : Nat
  page : Nat
  limit : Nat
  pages : Nat
  deriving Repr, DecidableEq

/-- A parking-history record (ParkingHistory.tsx). -/
structure ParkingHistoryRecord where
  parkID : String
  userID : String
  vehicle_plate : String
  in_date : String
  out_date : String
  payment_status : String
  total_billing : Int
  user_name : String
  user_email : String
  vehicle_description : String
  deriving Repr, DecidableEq

/-- An active parking session (ActiveParking.tsx); `out_date` nullable. -/
structure ActiveParkingSession where
  parkID : String
  userID : String
  vehicle_plate : String
  in_date : String
  out_date : Option String
  payment_status : String
  total_billing : Int
  vehicle_description : String
  deriving Repr, DecidableEq

/- ===================== Auth store (two copies of utils/auth.ts) ===================== -/

/-- Browser `localStorage`: either unavailable (every access throws) or a
list of key/value pairs. -/
inductive StorageState where
  | unavailable
  | available (items : List (String × String))
  deriving Repr, DecidableEq

/-- Association-list lookup used for `localStorage.getItem`. -/
def lookupItem (items : List (String × String)) (k : String) : Option String :=
  (items.find? (fun p => p.1 == k)).map (fun p => p.2)

/-- `localStorage.getItem(k)`: throws when storage is unavailable. -/
def getItemRaw : StorageState → String → Except Unit (Option String)
  | .unavailable, _ => .error ()
  | .available items, k => .ok (lookupItem items k)

/-- `localStorage.setItem(k, v)` on available storage: overwrite the key
if present, else append. -/
def setItem (items : List (String × String)) (k v : String) : List (String × String) :=
  if items.any (fun p => p.1 == k) then
    items.map (fun p => if p.1 == k then (k, v) else p)
  else items ++ [(k, v)]

/-- The token read before any `try/catch` is applied:
`localStorage.getItem('token')`, which may throw. -/
def getStoredTokenRaw (st : StorageState) : Except Unit (Option String) :=
  getItemRaw st "token"

/-- The user read before any `try/catch` is applied:
`localStorage.getItem('user')` followed by `JSON.parse`, either of which
may throw. -/
def getStoredUserRaw (parse : String → Except Unit User) (st : StorageState) :
    Except Unit (Option User) := do
  let s? ← getItemRaw st "user"
  match s? with
  | none => pure none
  | some s =>
    match parse s with
    | .ok u => pure (some u)
    | .error e => .error e

/-- utils/auth.ts, the copy WITH `try/catch` (alongside middleware.ts):
`getStoredToken` returns null on any storage failure. -/
def AuthGuarded.getStoredToken (st : StorageState) : Option String :=
  match getStoredTokenRaw st with
  | .ok v => v
  | .error _ => none

/-- utils/auth.ts (guarded copy): `getStoredUser` returns null on storage
failure or a corrupt (unparseable) stored value. -/
def AuthGuarded.getStoredUser (parse : String → Except Unit User)
    (st : StorageState) : Option User :=
  match getStoredUserRaw parse st with
  | .ok v => v
  | .error _ => none

/-- utils/auth.ts (guarded copy): `isAuthenticated` is the truthiness of
`token && user && user.role === 'admin'`, with its own `try/catch`
(which, in this embedding, can no longer fire because the reads below
are already total). -/
def AuthGuarded.isAuthenticated (parse : String → Except Unit User)
    (st : StorageState) : Bool :=
  let token := AuthGuarded.getStoredToken st
  let user := AuthGuarded.getStoredUser parse st
  jsTruthy token &&
    (match user with
     | some u => u.role == "admin"
     | none => false)

/-- utils/auth.ts, the copy WITHOUT `try/catch`: `getStoredToken`
propagates a storage exception to the caller. -/
def AuthPlain.getStoredToken (st : StorageState) : Except Unit (Option String) :=
  getStoredTokenRaw st

/-- utils/auth.ts (unguarded copy): `getStoredUser` propagates storage
and JSON-parse exceptions. -/
def AuthPlain.getStoredUser (parse : String → Except Unit User)
    (st : StorageState) : Except Unit (Option User) :=
  getStoredUserRaw parse st

/-- utils/auth.ts (unguarded copy): `isAuthenticated` with no
`try/catch`, so it propagates exceptions from the two reads. -/
def AuthPlain.isAuthenticated (parse : String → Except Unit User)
    (st : StorageState) : Except Unit Bool := do
  let token ← AuthPlain.getStoredToken st
  let user ← AuthPlain.getStoredUser parse st
  pure (jsTruthy token &&
    (match user with
     | some u => u.role == "admin"
     | none => false))

/-- utils/auth.ts (guarded copy): the page-level route guard. Returns the
navigation it performed (`router.push` target) and its boolean result. -/
def redirectIfNotAuthenticated (parse : String → Except Unit User)
    (st : StorageState) : Option String × Bool :=
  if AuthGuarded.isAuthenticated parse st then (none, true)
  else (some "/login", false)

/- ===================== Authenticated request helper ===================== -/

/-- The fields of JS `RequestInit` this client actually uses. -/
structure RequestOptions where
  method : Option String := none
  body : Option String := none
  headers : List (String × String) := []
  deriving Repr, DecidableEq

/-- The header object built by `authenticatedFetch` before the caller's
own headers are spread over it. -/
def defaultHeaders (token : Option String) : List (String × String) :=
  [("Content-Type", "application/json")] ++
    (match token with
     | some t => if t == "" then [] else [("Authorization", "Bearer " ++ t)]
     | none => [])

/-- utils/auth.ts `authenticatedFetch`: forwards the URL and options to
`fetch`, with `headers` rebuilt as
`{'Content-Type': ..., ...(token && {Authorization ...}), ...options.headers}`. -/
def authenticatedFetch (token : Option String) (url : String)
    (options : RequestOptions) : String × RequestOptions :=
  let headers := defaultHeaders token ++ options.headers
  (url, { options with headers := headers })

/- ===================== Edge middleware (middleware.ts) ===================== -/

/-- The parts of a `NextRequest` the middleware reads. -/
structure NextRequest where
  path : String
  cookieToken : Option String
  authHeader : Option String
  deriving Repr, DecidableEq

/-- The middleware's possible results: pass through or redirect. -/
inductive MwResult where
  | next
  | redirect (target : String)
  deriving Repr, DecidableEq

/-- middleware.ts, the trailing block: redirect an already-logged-in
visitor away from `/login` (token read from the cookie only), else
`NextResponse.next()`. -/
def middlewareTail (req : NextRequest) : MwResult :=
  if req.path == "/login" then
    if jsTruthy req.cookieToken then .redirect "/dashboard" else .next
  else .next

/-- middleware.ts `middleware`: for paths starting with a protected
prefix (`/dashboard`), require a token from the cookie or, failing that
(by JS `||` truthiness), from the `Authorization` header with `Bearer `
stripped; redirect to `/login` when absent. Control then falls through
to the `/login` block. -/
def middleware (req : NextRequest) : MwResult :=
  if strStartsWith req.path "/dashboard" then
    let token : Option String :=
      if jsTruthy req.cookieToken then req.cookieToken
      else req.authHeader.map stripBearer
    if !(jsTruthy token) then .redirect "/login"
    else middlewareTail req
  else middlewareTail req

/-- middleware.ts `config.matcher = ['/admin/:path*', '/login']`: Next.js
runs the middleware only on requests whose path matches one of these
patterns (`:path*` matches zero or more further segments). -/
def configMatcher (p : String) : Bool :=
  p == "/admin" || strStartsWith p "/admin/" || p == "/login"

/-- The deployed edge behaviour: the middleware runs only on paths the
configured matcher selects; every other request passes through. -/
def edgeLayer (req : NextRequest) : MwResult :=
  if configMatcher req.path then middleware req else .next

/- ===================== List-view controllers ===================== -/

/-- The outcome of one `fetch` call as each list view sees it: either an
exception thrown by `fetch`/`res.json()` (network failure, bad JSON),
carrying its message, or an HTTP response with its status code and
parsed body. (For non-2xx statuses the code never reads the body.) -/
inductive FetchOutcome (α : Type) where
  | throwOther (msg : String)
  | resp (httpStatus : Nat) (body : α)
  deriving Repr, DecidableEq

/-- `Response.ok`: status in the 2xx range. -/
def respOk (status : Nat) : Bool :=
  decide (200 ≤ status ∧ status ≤ 299)

/-- The JSON envelope of the history endpoint. -/
structure HistoryApiResponse where
  status : String
  data : List ParkingHistoryRecord
  pagination : PaginationInfo
  deriving Repr, DecidableEq

/-- The JSON envelope of the active-sessions endpoint. -/
structure ActiveApiResponse where
  status : String
  data : List ActiveParkingSession
  deriving Repr, DecidableEq

/-- The JSON envelope of the users endpoint. -/
structure UsersApiResponse where
  status : String
  data : List User
  deriving Repr, DecidableEq

/-- The component state of ParkingHistory.tsx that its fetch and filter
logic touches. -/
structure HistoryState where
  historyRecords : List ParkingHistoryRecord
  pagination : PaginationInfo
  isLoading : Bool
  error : Option String
  searchTerm : String
  selectedPaymentStatus : String
  startDate : String
  endDate : String
  sortBy : String
  sortOrder : String
  deriving Repr, DecidableEq

/-- ParkingHistory.tsx `fetchParkingHistory`: set loading, clear the
error, throw on a missing token / non-2xx status / non-success envelope
(each throw is caught and stored as the error message), store records
and pagination on success, and clear loading in the `finally` block. -/
def fetchParkingHistory (token : Option String)
    (out : FetchOutcome HistoryApiResponse) (s0 : HistoryState) : HistoryState :=
  let s := { s0 with isLoading := true, error := none }
  let s :=
    if !(jsTruthy token) then
      { s with error := some "No authentication token found" }
    else
      match out with
      | .throwOther msg => { s with error := some msg }
      | .resp status body =>
        if !(respOk status) then
          if status == 401 then
            { s with error := some "Authentication failed. Please login again." }
          else if status == 403 then
            { s with error := some "Access denied. Admin privileges required." }
          else
            { s with error := some ("HTTP error! status: " ++ toString status) }
        else if body.status == "success" then
          { s with historyRecords := body.data, pagination := body.pagination }
        else
          { s with error := some "Failed to fetch parking history" }
  { s with isLoading := false }

/-- The component state of ActiveParking.tsx. -/
structure ActiveState where
  activeSessions : List ActiveParkingSession
  isLoading : Bool
  error : Option String
  searchTerm : String
  selectedPaymentStatus : String
  deriving Repr, DecidableEq

/-- ActiveParking.tsx `fetchActiveParkingSessions`: same shape as the
history fetch but with no pagination and no `setIsLoading(true)` at the
start; loading is still cleared in the `finally` block. -/
def fetchActiveParkingSessions (token : Option String)
    (out : FetchOutcome ActiveApiResponse) (s0 : ActiveState) : ActiveState :=
  let s := { s0 with error := none }
  let s :=
    if !(jsTruthy token) then
      { s with error := some "No authentication token found" }
    else
      match out with
      | .throwOther msg => { s with error := some msg }
      | .resp status body =>
        if !(respOk status) then
          if status == 401 then
            { s with error := some "Authentication failed. Please login again." }
          else if status == 403 then
            { s with error := some "Access denied. Admin privileges required." }
          else
            { s with error := some ("HTTP error! status: " ++ toString status) }
        else if body.status == "success" then
          { s with activeSessions := body.data }
        else
          { s with error := some "Failed to fetch active parking sessions" }
  { s with isLoading := false }

/-- The component state of UsersManagement.tsx (the RFID modal state is
modelled separately). -/
structure UsersState where
  users : List User
  isLoading : Bool
  error : Option String
  searchTerm : String
  selectedRole : String
  deriving Repr, DecidableEq

/-- UsersManagement.tsx `fetchUsers`; loading cleared in `finally`. -/
def fetchUsers (token : Option String)
    (out : FetchOutcome UsersApiResponse) (s0 : UsersState) : UsersState :=
  let s := { s0 with error := none }
  let s :=
    if !(jsTruthy token) then
      { s with error := some "No authentication token found" }
    else
      match out with
      | .throwOther msg => { s with error := some msg }
      | .resp status body =>
        if !(respOk status) then
          if status == 401 then
            { s with error := some "Authentication failed. Please login again." }
          else if status == 403 then
            { s with error := some "Access denied. Admin privileges required." }
          else
            { s with error := some ("HTTP error! status: " ++ toString status) }
        else if body.status == "success" then
          { s with users := body.data }
        else
          { s with error := some "Failed to fetch users data" }
  { s with isLoading := false }

/- ===================== Client-side search filters ===================== -/

/-- ParkingHistory.tsx `filteredRecords` predicate: keep everything on an
empty search term, else OR the case-insensitive substring test over
plate, description, user name and user email. -/
def historyMatches (searchTerm : String) (r : ParkingHistoryRecord) : Bool :=
  if searchTerm == "" then true
  else
    jsIncludes (strToLower r.vehicle_plate) (strToLower searchTerm) ||
    jsIncludes (strToLower r.vehicle_description) (strToLower searchTerm) ||
    jsIncludes (strToLower r.user_name) (strToLower searchTerm) ||
    jsIncludes (strToLower r.user_email) (strToLower searchTerm)

/-- ParkingHistory.tsx `filteredRecords`. -/
def filteredRecords (s : HistoryState) : List ParkingHistoryRecord :=
  s.historyRecords.filter (historyMatches s.searchTerm)

/-- ActiveParking.tsx: the `matchesSearch` part of `filteredSessions`. -/
def sessionSearchMatch (searchTerm : String) (x : ActiveParkingSession) : Bool :=
  jsIncludes (strToLower x.vehicle_plate) (strToLower searchTerm) ||
  jsIncludes (strToLower x.vehicle_description) (strToLower searchTerm) ||
  jsIncludes (strToLower x.userID) (strToLower searchTerm)

/-- ActiveParking.tsx `filteredSessions` predicate: search match AND
payment-status match. -/
def sessionMatches (searchTerm selectedPaymentStatus : String)
    (x : ActiveParkingSession) : Bool :=
  sessionSearchMatch searchTerm x &&
    (selectedPaymentStatus == "all" || x.payment_status == selectedPaymentStatus)

/-- ActiveParking.tsx `filteredSessions`. -/
def filteredSessions (s : ActiveState) : List ActiveParkingSession :=
  s.activeSessions.filter (sessionMatches s.searchTerm s.selectedPaymentStatus)

/-- The text fields ParkingHistory.tsx configures its search over, as a
list, for stating field-quantified properties of the filter. -/
def historyFields (r : ParkingHistoryRecord) : List String :=
  [r.vehicle_plate, r.vehicle_description, r.user_name, r.user_email]

/-- The text fields ActiveParking.tsx configures its search over. -/
def sessionFields (x : ActiveParkingSession) : List String :=
  [x.vehicle_plate, x.vehicle_description, x.userID]

/- ===================== Filter application and refresh triggering ===================== -/

/-- ParkingHistory.tsx `handleApplyFilters`: the only thing the click
handler does is reset `pagination.page` to 1. -/
def handleApplyFilters (s : HistoryState) : HistoryState :=
  { s with pagination := { s.pagination with page := 1 } }

/-- ParkingHistory.tsx `handlePageChange`. -/
def handlePageChange (newPage : Nat) (s : HistoryState) : HistoryState :=
  { s with pagination := { s.pagination with page := newPage } }

/-- The dependency tuple of the `useCallback` wrapping
`fetchParkingHistory` (line 114): the memoized callback's identity
changes exactly when this tuple changes. -/
def historyDeps (s : HistoryState) :
    Nat × Nat × String × String × String × String × String :=
  (s.pagination.page, s.pagination.limit, s.selectedPaymentStatus,
   s.startDate, s.endDate, s.sortBy, s.sortOrder)

/-- React effect semantics for `useEffect(..., [fetchParkingHistory])`:
after a state update from `s` to a new state, the effect re-runs (and
so a fresh fetch is issued) exactly when the memoized callback was
rebuilt, i.e. when the dependency tuple differs between the two states. -/
def refreshTriggered (before after : HistoryState) : Bool :=
  decide (historyDeps before ≠ historyDeps after)

/- ===================== Login page (app/login/page.tsx) ===================== -/

/-- The parsed body of the login response. The code reads it as a union
`LoginResponse | ErrorResponse`; the embedding carries all fields, with
`message` the optional error-branch field and `user`/`token` the
success-branch data. -/
structure LoginRespBody where
  status : String
  user : User
  token : String
  message : Option String := none
  deriving Repr, DecidableEq

/-- The outcome of the login `fetch`: a thrown exception (network error
or `res.json()` failure — the page's `catch` does not inspect it) or a
response with `res.ok` and the parsed body. -/
inductive LoginOutcome where
  | throwEx
  | resp (ok : Bool) (body : LoginRespBody)
  deriving Repr, DecidableEq

/-- Everything the login submit handler leaves behind: component state,
the (possibly updated) localStorage contents, and the navigation it
performed. -/
structure LoginResult where
  loading : Bool
  error : String
  roleError : String
  storage : List (String × String)
  nav : Option String
  deriving Repr, DecidableEq

/-- app/login/page.tsx `handleSubmit`: validate inputs, POST the
credentials, on `res.ok && status === 'success'` check the role — a
non-admin role sets `roleError` and returns before any storage write or
navigation; an admin role writes token and serialized user to storage
and navigates to `/dashboard`; other responses set `error` from the
body message (or a fallback); exceptions set a network-error message.
`stringify` stands for `JSON.stringify` on the user record. -/
def Login.handleSubmit (stringify : User → String) (email password : String)
    (storage : List (String × String)) (out : LoginOutcome) : LoginResult :=
  if email == "" || password == "" then
    { loading := false, error := "Email and password are required",
      roleError := "", storage := storage, nav := none }
  else
    match out with
    | .throwEx =>
      { loading := false, error := "Network error. Please try again.",
        roleError := "", storage := storage, nav := none }
    | .resp ok body =>
      if ok && (body.status == "success") then
        if !(body.user.role == "admin") then
          { loading := false, error := "",
            roleError := "Access denied. You are not authorized as admin.",
            storage := storage, nav := none }
        else
          { loading := false, error := "", roleError := "",
            storage := setItem (setItem storage "token" body.token)
                        "user" (stringify body.user),
            nav := some "/dashboard" }
      else
        { loading := false,
          error :=
            (match body.message with
             | some m => if m == "" then "Login failed." else m
             | none => "Login failed."),
          roleError := "", storage := storage, nav := none }

/- ===================== RFID modal (UsersManagement.tsx) ===================== -/

/-- The RFID modal's component state (plus the open/closed and mode flags
its parent owns, since `onClose` resets them). -/
structure RfidModalState where
  isOpen : Bool
  user : Option User
  mode : String
  rfidValue : String
  isLoading : Bool
  error : Option String
  deriving Repr, DecidableEq

/-- The POST request the modal submit would issue. -/
structure RfidRequest where
  userID : String
  rfid : String
  deriving Repr, DecidableEq

/-- The error-branch body of the RFID endpoints (`errorData.message`,
defaulting to an empty object when the body is unparseable). -/
def rfidErrMsg (status : Nat) (message : Option String) : String :=
  if status == 401 then "Authentication failed. Please login again."
  else if status == 403 then "Access denied. Admin privileges required."
  else if status == 404 then "User not found."
  else if status == 409 then "RFID already assigned to another user."
  else
    match message with
    | some m => if m == "" then "HTTP error! status: " ++ toString status else m
    | none => "HTTP error! status: " ++ toString status

/-- UsersManagement.tsx `RfidModal.handleSubmit`: guard
`if (!user || !rfidValue.trim()) return;` issues nothing and changes
nothing; otherwise set loading, issue the authenticated POST with the
trimmed tag, map failures to messages, and on success run the parent's
`onSuccess`/`onClose` callbacks (which close the modal and reset it to
add mode); loading is cleared in the `finally` block. Returns the final
modal state and the request issued, if any. -/
def RfidModal.handleSubmit (token : Option String)
    (out : FetchOutcome (Option String)) (s : RfidModalState) :
    RfidModalState × Option RfidRequest :=
  match s.user with
  | none => (s, none)
  | some u =>
    if jsTrim s.rfidValue == "" then (s, none)
    else
      let s1 := { s with isLoading := true, error := none }
      if !(jsTruthy token) then
        ({ s1 with error := some "No authentication token found",
                   isLoading := false }, none)
      else
        let req : RfidRequest := { userID := u.userID, rfid := jsTrim s.rfidValue }
        match out with
        | .throwOther msg =>
          ({ s1 with error := some msg, isLoading := false }, some req)
        | .resp status message =>
          if !(respOk status) then
            ({ s1 with error := some (rfidErrMsg status message),
                       isLoading := false }, some req)
          else
            ({ s1 with isOpen := false, user := none, mode := "add",
                       isLoading := false }, some req)

/- ===================== Concrete inputs used by witnesses and counterexamples ===================== -/

/-- A stand-in for `JSON.parse` at inputs that are not valid JSON: it
throws on every input handed to it below. -/
def parse0 : String → Except Unit User := fun _ => Except.error ()

/-- A parking-history state whose page is already 1 (the default state
of ParkingHistory.tsx). -/
def pageOneState : HistoryState :=
  { historyRecords := [], pagination := { total := 0, page := 1, limit := 20, pages := 1 },
    isLoading := false, error := none, searchTerm := "",
    selectedPaymentStatus := "all", startDate := "", endDate := "",
    sortBy := "in_date", sortOrder := "desc" }

/-- A history record whose plate matches the search below but whose other
configured fields do not. -/
def c4Record : ParkingHistoryRecord :=
  { parkID := "p1", userID := "u1", vehicle_plate := "B1234CD",
    in_date := "2025-01-01", out_date := "2025-01-02",
    payment_status := "paid", total_billing := 15000,
    user_name := "Budi", user_email := "budi@mail.com",
    vehicle_description := "Sedan" }

/-- A login response body: 2xx success envelope carrying a non-admin user. -/
def c7Body : LoginRespBody :=
  { status := "success",
    user := { userID := "u1", username := "budi", email := "a@b.c",
              vehicles := [], role := "user" },
    token := "tok123" }

/-- An open RFID modal whose tag input is whitespace only. -/
def c8State : RfidModalState :=
  { isOpen := true,
    user := some { userID := "u1", username := "budi", email := "a@b.c",
                   vehicles := [], role := "user" },
    mode := "add", rfidValue := "   ", isLoading := false, error := none }

/- ===================== Shared helper lemmas ===================== -/

/-- The empty pattern occurs in every character list (JS `includes('')`). -/
theorem containsChars_nil (l : List Char) : containsChars [] l = true := by
  cases l <;> simp [containsChars, startsWithChars]

/-- Lookup through an appended header object: the right (later-spread)
part wins, the left part is the fallback. -/
theorem hGet_append (a b : List (String × String)) (k : String) :
    hGet (a ++ b) k =
      match hGet b k with
      | some v => some v
      | none => hGet a k := by
  induction a with
  | nil => simp [hGet]; cases hGet b k <;> rfl
  | cons p rest ih =>
    obtain ⟨k', v⟩ := p
    simp only [List.cons_append, hGet, List.append_eq]
    rw [ih]
    cases hGet b k <;> cases hGet rest k <;> simp [hGet]

/- ===================== Claim theorems ===================== -/

/-- Claim C9: every execution path of a list-view refresh — success,
non-success envelope, non-2xx HTTP status, missing token, network
failure or any thrown exception — ends with the loading flag cleared
(set to false) as its final step, for all three list views. -/
theorem c9_loading_cleared (token : Option String)
    (oh : FetchOutcome HistoryApiResponse) (oa : FetchOutcome ActiveApiResponse)
    (ou : FetchOutcome UsersApiResponse)
    (sh : HistoryState) (sa : ActiveState) (su : UsersState) :
    (fetchParkingHistory token oh sh).isLoading = false ∧
    (fetchActiveParkingSessions token oa sa).isLoading = false ∧
    (fetchUsers token ou su).isLoading = false :=
  ⟨rfl, rfl, rfl⟩

/-- Claim C1: for every list-view fetch (parking history, active
sessions, users) whose HTTP response is 2xx but whose JSON envelope has
`status != "success"`, the controller's items state is exactly what it
was before the call and its error state is set to a non-empty message. -/
theorem c1_bad_envelope_preserves_items (token : Option String) (status : Nat)
    (bh : HistoryApiResponse) (ba : ActiveApiResponse) (bu : UsersApiResponse)
    (sh : HistoryState) (sa : ActiveState) (su : UsersState)
    (htok : jsTruthy token = true) (hok : respOk status = true)
    (h1 : bh.status ≠ "success") (h2 : ba.status ≠ "success")
    (h3 : bu.status ≠ "success") :
    ((fetchParkingHistory token (.resp status bh) sh).historyRecords =
        sh.historyRecords ∧
      ∃ m, (fetchParkingHistory token (.resp status bh) sh).error = some m ∧
        m ≠ "") ∧
    ((fetchActiveParkingSessions token (.resp status ba) sa).activeSessions =
        sa.activeSessions ∧
      ∃ m, (fetchActiveParkingSessions token (.resp status ba) sa).error =
        some m ∧ m ≠ "") ∧
    ((fetchUsers token (.resp status bu) su).users = su.users ∧
      ∃ m, (fetchUsers token (.resp status bu) su).error = some m ∧ m ≠ "") := by
  have e1 : (bh.status == "success") = false := beq_eq_false_iff_ne.mpr h1
  have e2 : (ba.status == "success") = false := beq_eq_false_iff_ne.mpr h2
  have e3 : (bu.status == "success") = false := beq_eq_false_iff_ne.mpr h3
  refine ⟨⟨?_, ?_⟩, ⟨?_, ?_⟩, ⟨?_, ?_⟩⟩ <;>
    simp [fetchParkingHistory, fetchActiveParkingSessions, fetchUsers,
      htok, hok, e1, e2, e3]

/-- Claim C1 witness: a concrete 200 response with a `"failure"` envelope
leaves each view's items alone and stores a non-empty error. -/
theorem c1_bad_envelope_preserves_items_witness :
    ((fetchParkingHistory (some "tok")
        (.resp 200 { status := "failure", data := [], pagination := ⟨0, 1, 20, 1⟩ })
        pageOneState).historyRecords = pageOneState.historyRecords ∧
      ∃ m, (fetchParkingHistory (some "tok")
        (.resp 200 { status := "failure", data := [], pagination := ⟨0, 1, 20, 1⟩ })
        pageOneState).error = some m ∧ m ≠ "") ∧
    ((fetchActiveParkingSessions (some "tok")
        (.resp 200 { status := "failure", data := [] })
        { activeSessions := [], isLoading := true, error := none,
          searchTerm := "", selectedPaymentStatus := "all" }).activeSessions =
        [] ∧
      ∃ m, (fetchActiveParkingSessions (some "tok")
        (.resp 200 { status := "failure", data := [] })
        { activeSessions := [], isLoading := true, error := none,
          searchTerm := "", selectedPaymentStatus := "all" }).error =
        some m ∧ m ≠ "") ∧
    ((fetchUsers (some "tok") (.resp 200 { status := "failure", data := [] })
        { users := [], isLoading := true, error := none, searchTerm := "",
          selectedRole := "all" }).users = [] ∧
      ∃ m, (fetchUsers (some "tok")
        (.resp 200 { status := "failure", data := [] })
        { users := [], isLoading := true, error := none, searchTerm := "",
          selectedRole := "all" }).error = some m ∧ m ≠ "") :=
  c1_bad_envelope_preserves_items (some "tok") 200 _ _ _ _ _ _
    (by decide) (by decide) (by decide) (by decide) (by decide)

/-- Claim C8: for every tag value whose trimmed form is empty (empty
string or whitespace only), invoking the RFID modal's submit issues no
network request and leaves the modal state unchanged. -/
theorem c8_empty_tag_no_request (token : Option String)
    (out : FetchOutcome (Option String)) (s : RfidModalState)
    (h : jsTrim s.rfidValue = "") :
    RfidModal.handleSubmit token out s = (s, none) := by
  unfold RfidModal.handleSubmit
  cases s.user with
  | none => rfl
  | some u => simp [h]

/-- Claim C8 witness: a whitespace-only tag in an open modal with a user
selected produces no request and the identical state. -/
theorem c8_empty_tag_no_request_witness :
    RfidModal.handleSubmit (some "tok") (.throwOther "boom") c8State =
      (c8State, none) :=
  c8_empty_tag_no_request (some "tok") (.throwOther "boom") c8State (by decide)

/-- Claim C7: for every login response that is 2xx with status
`"success"` but whose user record has a role different from `"admin"`,
the login handler sets the role-denied message and writes neither the
token nor the user record to persistent storage, and does not navigate
to the dashboard. -/
theorem c7_role_denied_no_write (stringify : User → String)
    (email password : String) (storage : List (String × String))
    (body : LoginRespBody)
    (he : email ≠ "") (hp : password ≠ "")
    (hs : body.status = "success") (hr : body.user.role ≠ "admin") :
    Login.handleSubmit stringify email password storage (.resp true body) =
      { loading := false, error := "",
        roleError := "Access denied. You are not authorized as admin.",
        storage := storage, nav := none } := by
  have e1 : (email == "") = false := beq_eq_false_iff_ne.mpr he
  have e2 : (password == "") = false := beq_eq_false_iff_ne.mpr hp
  have e3 : (body.status == "success") = true := beq_iff_eq.mpr hs
  have e4 : (body.user.role == "admin") = false := beq_eq_false_iff_ne.mpr hr
  simp [Login.handleSubmit, e1, e2, e3, e4]

/-- Claim C7 witness: a concrete successful login of a `"user"`-role
account sets the role-denied message, leaves storage empty and does not
navigate. -/
theorem c7_role_denied_no_write_witness :
    Login.handleSubmit (fun _ => "") "a@b.c" "pw" [] (.resp true c7Body) =
      { loading := false, error := "",
        roleError := "Access denied. You are not authorized as admin.",
        storage := [], nav := none } :=
  c7_role_denied_no_write (fun _ => "") "a@b.c" "pw" [] c7Body
    (by decide) (by decide) rfl (by decide)

/-- Claim C6 counterexample: the copy of the auth util WITHOUT
`try/catch` propagates exceptions instead of returning the absent
value: on unavailable storage `getStoredToken` throws, and on a corrupt
stored user record `getStoredUser` throws, refuting the claim that
every stored value degrades to null. -/
theorem c6_plain_auth_propagates :
    AuthPlain.getStoredToken StorageState.unavailable = Except.error () ∧
    AuthPlain.getStoredUser parse0
      (StorageState.available [("user", "corrupt")]) = Except.error () ∧
    AuthPlain.isAuthenticated parse0 StorageState.unavailable =
      Except.error () :=
  ⟨rfl, rfl, rfl⟩

/-- Claim C6 (amended): in the guarded copy of the auth util (the one
with `try/catch`), whenever a raw read would throw — storage
unavailable or a corrupt stored user record — `getStoredToken` /
`getStoredUser` return the absent value and `isAuthenticated` returns
false; the unguarded duplicate copy propagates the exception. -/
theorem c6_guarded_auth_degrades (parse : String → Except Unit User)
    (st : StorageState) :
    (getStoredTokenRaw st = Except.error () →
      AuthGuarded.getStoredToken st = none ∧
      AuthGuarded.isAuthenticated parse st = false) ∧
    (getStoredUserRaw parse st = Except.error () →
      AuthGuarded.getStoredUser parse st = none ∧
      AuthGuarded.isAuthenticated parse st = false) := by
  constructor
  · intro h
    have hg : AuthGuarded.getStoredToken st = none := by
      simp [AuthGuarded.getStoredToken, h]
    exact ⟨hg, by simp [AuthGuarded.isAuthenticated, hg, jsTruthy]⟩
  · intro h
    have hg : AuthGuarded.getStoredUser parse st = none := by
      simp [AuthGuarded.getStoredUser, h]
    exact ⟨hg, by simp [AuthGuarded.isAuthenticated, hg]⟩

/-- Claim C6 witness: on unavailable storage and on a corrupt stored
user record, the guarded reads return none and the guarded
`isAuthenticated` returns false. -/
theorem c6_guarded_auth_degrades_witness :
    (AuthGuarded.getStoredToken StorageState.unavailable = none ∧
      AuthGuarded.isAuthenticated parse0 StorageState.unavailable = false) ∧
    (AuthGuarded.getStoredUser parse0
        (StorageState.available [("user", "corrupt")]) = none ∧
      AuthGuarded.isAuthenticated parse0
        (StorageState.available [("user", "corrupt")]) = false) :=
  ⟨(c6_guarded_auth_degrades parse0 StorageState.unavailable).1 rfl,
   (c6_guarded_auth_degrades parse0
      (StorageState.available [("user", "corrupt")])).2 rfl⟩

/-- Claim C5 counterexample: with no stored token the authenticated
request helper does NOT return the options unmodified — it still
injects a `Content-Type: application/json` header absent from the
caller's options. -/
theorem c5_no_token_not_unmodified :
    (authenticatedFetch none "https://x" {}).2 ≠ ({} : RequestOptions) ∧
    hGet ((authenticatedFetch none "https://x" {}).2.headers)
      "Content-Type" = some "application/json" ∧
    hGet ({} : RequestOptions).headers "Content-Type" = none := by
  refine ⟨?_, rfl, rfl⟩
  decide

/-- Claim C5 (amended): the helper forwards the URL and all non-header
option fields unchanged, and replaces `headers` by the defaults —
`Content-Type: application/json`, plus `Authorization: Bearer <token>`
when a (truthy) stored token is present — with the caller's own header
entries taking precedence over both. -/
theorem c5_headers_amended (token : Option String) (url : String)
    (opts : RequestOptions) (k : String) :
    (authenticatedFetch token url opts).1 = url ∧
    (authenticatedFetch token url opts).2.method = opts.method ∧
    (authenticatedFetch token url opts).2.body = opts.body ∧
    hGet (authenticatedFetch token url opts).2.headers k =
      (match hGet opts.headers k with
       | some v => some v
       | none => hGet (defaultHeaders token) k) := by
  refine ⟨rfl, rfl, rfl, ?_⟩
  simpa [authenticatedFetch] using
    hGet_append (defaultHeaders token) opts.headers k

/-- Claim C4 counterexample: the search filter keeps a record whose
plate matches even though other configured fields do not match, so
"kept iff the match succeeds on every configured field" is false: the
code ORs the per-field matches rather than ANDing them. -/
theorem c4_search_or_not_and :
    historyMatches "b1234" c4Record = true ∧
    (historyFields c4Record).all
      (fun f => jsIncludes (strToLower f) (strToLower "b1234")) = false := by
  constructor <;> decide

/-- Claim C4 (amended): for a non-empty search string the client-side
search filter keeps a record iff the case-insensitive substring match
succeeds on at least one of the configured text fields (logical OR
across fields), and the empty search string matches every record; in
the active-sessions view the search conjunct is further ANDed with the
payment-status filter. -/
theorem c4_search_filter_or (t ps : String) (r : ParkingHistoryRecord)
    (x : ActiveParkingSession) :
    historyMatches t r =
      ((t == "") ||
        (historyFields r).any (fun f => jsIncludes (strToLower f) (strToLower t))) ∧
    sessionSearchMatch t x =
      (sessionFields x).any (fun f => jsIncludes (strToLower f) (strToLower t)) ∧
    historyMatches "" r = true ∧
    sessionSearchMatch "" x = true ∧
    sessionMatches t ps x =
      (sessionSearchMatch t x &&
        (ps == "all" || x.payment_status == ps)) := by
  refine ⟨?_, ?_, ?_, ?_, rfl⟩
  · by_cases h : t = ""
    · subst h; simp [historyMatches]
    · have e : (t == "") = false := beq_eq_false_iff_ne.mpr h
      simp [historyMatches, historyFields, e, Bool.or_assoc]
  · simp [sessionSearchMatch, sessionFields, Bool.or_assoc]
  · simp [historyMatches]
  · simp [sessionSearchMatch, jsIncludes, strToLower, containsChars_nil]

/-- Claim C3 counterexample: when `pagination.page` is already 1,
clicking Apply Filters still sets the page to 1 but does NOT trigger a
refresh: `handleApplyFilters` only updates the page, the fetch is
re-issued by the mount effect, and that effect re-runs only when the
`useCallback` dependency tuple changes — which it does not here. -/
theorem c3_page_one_no_refresh :
    (handleApplyFilters pageOneState).pagination.page = 1 ∧
    refreshTriggered pageOneState (handleApplyFilters pageOneState) = false := by
  constructor
  · rfl
  · decide

/-- Claim C3 (amended): `applyFilters()` always sets `pagination.page`
to 1, and the subsequent effect issues a fresh fetch exactly when the
dependency tuple changed, i.e. exactly when the prior page value was
not already 1; when the page was already 1 no new request is issued. -/
theorem c3_apply_filters_resets_page (s : HistoryState) :
    (handleApplyFilters s).pagination.page = 1 ∧
    (refreshTriggered s (handleApplyFilters s) = true ↔
      s.pagination.page ≠ 1) := by
  refine ⟨rfl, ?_⟩
  simp [refreshTriggered, historyDeps, handleApplyFilters, decide_eq_true_eq,
    Prod.mk.injEq]

/-- Claim C2: its first half fails on the code. The middleware body does
treat `/dashboard` as a protected prefix and would redirect a tokenless
request to `/login`, but the exported matcher configuration restricts
the middleware to `/admin/:path*` and `/login`, so for a `/dashboard`
request the edge layer never runs the middleware and the request passes
through unredirected; only the page-level guard (which redirects to
`/login` whenever the Auth Store does not hold a token plus an admin
user) denies the access. -/
theorem c2_dashboard_edge_check_dead :
    edgeLayer { path := "/dashboard", cookieToken := none,
                authHeader := none } = MwResult.next ∧
    middleware { path := "/dashboard", cookieToken := none,
                 authHeader := none } = MwResult.redirect "/login" ∧
    configMatcher "/dashboard" = false ∧
    redirectIfNotAuthenticated parse0 StorageState.unavailable =
      (some "/login", false) := by
  refine ⟨?_, ?_, ?_, rfl⟩ <;> decide

/-- Claim C10: a request whose path is exactly `/login` carrying a
(non-empty) token cookie is redirected by the edge middleware to
`/dashboard`; a `/login` request without a token cookie passes through
unchanged, whatever its `Authorization` header. -/
theorem c10_login_token_redirect (cookie authHeader : Option String) :
    (∀ v, cookie = some v → v ≠ "" →
      edgeLayer { path := "/login", cookieToken := cookie,
                  authHeader := authHeader } = MwResult.redirect "/dashboard") ∧
    (cookie = none →
      edgeLayer { path := "/login", cookieToken := cookie,
                  authHeader := authHeader } = MwResult.next) := by
  constructor
  · intro v hv hne
    subst hv
    have e : (v == "") = false := beq_eq_false_iff_ne.mpr hne
    have hm : configMatcher "/login" = true := by decide
    have hp : strStartsWith "/login" "/dashboard" = false := by decide
    simp [edgeLayer, hm, middleware, hp, middlewareTail, jsTruthy, e]
  · intro h
    subst h
    have hm : configMatcher "/login" = true := by decide
    have hp : strStartsWith "/login" "/dashboard" = false := by decide
    simp [edgeLayer, hm, middleware, hp, middlewareTail, jsTruthy]

/-- Claim C10 witness: a concrete `/login` request with a token cookie
is redirected to `/dashboard`; one with no cookie (even with an
`Authorization` header) passes through. -/
theorem c10_login_token_redirect_witness :
    edgeLayer { path := "/login", cookieToken := some "tok",
                authHeader := none } = MwResult.redirect "/dashboard" ∧
    edgeLayer { path := "/login", cookieToken := none,
                authHeader := some "Bearer tok" } = MwResult.next :=
  ⟨(c10_login_token_redirect (some "tok") none).1 "tok" rfl (by decide),
   (c10_login_token_redirect none (some "Bearer tok")).2 rfl⟩
